import Mathlib

/-!
Shallow embedding of `roblox/utilities/requests.py` (the token-aware request
dispatcher of the requests_ro.py repository) and proofs about its
request/retry/error-translation pipeline.

The transport (`requests.Session`, an external library) is modelled as an
oracle `send : Nat → Response` giving the response to the n-th transport
invocation of one `Requests.request` call.  Header dictionaries
(`requests.structures.CaseInsensitiveDict`) are association lists with
case-insensitive lookup and update.  The JSON body of a response is modelled
as `Option Json`: `none` means `response.json()` raises a decode error.
-/

namespace RequestsRo

/-- Python `str.lower` (ASCII range), mapped over the characters.  It agrees
with `String.toLower` (see `pyLower_eq_toLower`) but is structurally
recursive, so concrete instances evaluate inside the kernel. -/
def pyLower (s : String) : String := ⟨s.data.map Char.toLower⟩

/-- Python `str.startswith`, as a prefix test on the character list. -/
def pyStartsWith (s pre : String) : Bool := pre.data.isPrefixOf s.data

/-- Header mapping: association list of name/value pairs. -/
abbrev Headers := List (String × String)

/-- Case-insensitive lookup, as in `requests.structures.CaseInsensitiveDict`. -/
def hGet (hs : Headers) (k : String) : Option String :=
  (hs.find? (fun p => pyLower p.fst == pyLower k)).map Prod.snd

/-- Case-insensitive update: drop any entry with the same lowercased name,
then store the pair under the given name. -/
def hSet (hs : Headers) (k v : String) : Headers :=
  hs.filter (fun p => pyLower p.fst != pyLower k) ++ [(k, v)]

/-- Values produced by `response.json()` (Python objects decoded from JSON). -/
inductive Json where
  | null
  | bool (b : Bool)
  | num (n : Int)
  | str (s : String)
  | arr (elems : List Json)
  | obj (fields : List (String × Json))
deriving Repr

/-- Python truthiness of a decoded JSON value. -/
def Json.truthy : Json → Bool
  | .null => false
  | .bool b => b
  | .num n => n != 0
  | .str s => s != ""
  | .arr xs => !xs.isEmpty
  | .obj fs => !fs.isEmpty

/-- An HTTP response as seen by the dispatcher: status code, headers, and the
outcome of decoding its body as JSON (`none` = `JSONDecodeError`). -/
structure Response where
  status_code : Nat
  headers : Headers
  jsonBody : Option Json
deriving Repr

/-- The dict `_xcsrf_allowed_methods` from requests.py, mapping the unsafe
methods to `True`. -/
def _xcsrf_allowed_methods : List (String × Bool) :=
  [("post", true), ("put", true), ("patch", true), ("delete", true)]

/-- Python `dict.get(key)` coerced to a truth value: a missing key yields
`None`, which is falsy. -/
def dictGetTruthy (d : List (String × Bool)) (k : String) : Bool :=
  (((d.find? (fun p => p.fst == k)).map Prod.snd).getD false)

/-- Modelled from the spec: the error-classification collaborator
(`get_exception_from_status_code` in `roblox/utilities/exceptions.py`, not
under src/) yields a Domain Error value carrying the status code it was
looked up with, the extracted errors (or absent), and the response. -/
structure DomainError where
  status_code : Nat
  errors : Option Json
  response : Response
deriving Repr

/-- The mutable state of a `Requests` object that the dispatcher touches:
the transport session's default headers and the configured token header
name. -/
structure Requests where
  sessionHeaders : Headers
  xcsrf_token_name : String
deriving Repr

/-- The per-call keyword options popped or read by `Requests.request`:
`handle_xcsrf_token` (default `True`), `skip_roblox` (default `False`) and
`stream` (default `False`). -/
structure CallOptions where
  handle_xcsrf_token : Bool := true
  skip_roblox : Bool := false
  stream : Bool := false
deriving Repr

/-- How one call to `Requests.request` ends: a returned response, a raised
Domain Error, or a Python `AttributeError` escaping from
`data.get("errors")` when the decoded body is a truthy non-dict. -/
inductive Outcome where
  | success (r : Response)
  | domainError (e : DomainError)
  | attrErrorRaised (r : Response)
deriving Repr

/-- Everything observable about one call: how it ended, the session default
headers after the call, the (method, payload) of every transport
invocation in order, and the value of the local `response` variable at the
end (the effective response). -/
structure RunResult where
  outcome : Outcome
  finalHeaders : Headers
  sentCalls : List (String × String)
  effectiveResponse : Response
deriving Repr

/-- The Python variable `data` after
`try: data = response.json() except JSONDecodeError: pass`:
`None` both when decoding fails and when the body decodes to JSON null. -/
def pyData (r : Response) : Option Json :=
  match r.jsonBody with
  | some Json.null => none
  | some j => some j
  | none => none

/-- Collapse JSON null to Python `None`. -/
def denull : Option Json → Option Json
  | some Json.null => none
  | x => x

/-- Result of evaluating `errors = data and data.get("errors")`. -/
inductive ErrorsOutcome where
  | extracted (errors : Option Json)
  | attributeRaised
deriving Repr

/-- Python `errors = data and data.get("errors")`: falsy `data` is returned
as is; a truthy dict is looked up; a truthy non-dict raises
`AttributeError`. -/
def pyGetErrors : Option Json → ErrorsOutcome
  | none => .extracted none
  | some j =>
    if j.truthy then
      match j with
      | .obj fs => .extracted (denull ((fs.find? (fun p => p.fst == "errors")).map Prod.snd))
      | _ => .attributeRaised
    else .extracted (denull (some j))

/-- Evaluates `content_type and content_type.startswith("application/json")`
on `response.headers.get("Content-Type")`. -/
def contentTypeIsJson (r : Response) : Bool :=
  match hGet r.headers "Content-Type" with
  | some ct => ct != "" && pyStartsWith ct "application/json"
  | none => false

/-- The `status_code >= 400` branch of `Requests.request`: build the
exception from the status code, the extracted errors and the response, and
raise it (or let the `AttributeError` escape). -/
def translateRaise (r : Response) : Outcome :=
  if contentTypeIsJson r then
    match pyGetErrors (pyData r) with
    | .extracted errs =>
      .domainError { status_code := r.status_code, errors := errs, response := r }
    | .attributeRaised => .attrErrorRaised r
  else
    .domainError { status_code := r.status_code, errors := none, response := r }

/-- The guard of the token-handling block:
`handle_xcsrf_token and self.xcsrf_token_name in response.headers and
_xcsrf_allowed_methods.get(method)`. -/
def xcsrfGuard (self : Requests) (opts : CallOptions) (m : String) (r : Response) : Bool :=
  opts.handle_xcsrf_token && (hGet r.headers self.xcsrf_token_name).isSome
    && dictGetTruthy _xcsrf_allowed_methods m

/-- Intermediate state after the token-handling block: the current
`response` variable, the session headers, and the transport calls made so
far. -/
structure StepResult where
  response : Response
  headers : Headers
  calls : List (String × String)
deriving Repr

/-- The token-handling block of `Requests.request`: when the guard holds,
copy the token header from the response into the session headers, and on a
403 resend the identical request once, the resend's response replacing
`response`. -/
def tokenStep (self : Requests) (send : Nat → Response) (m payload : String)
    (opts : CallOptions) (r0 : Response) : StepResult :=
  if xcsrfGuard self opts m r0 then
    let hs := hSet self.sessionHeaders self.xcsrf_token_name
      ((hGet r0.headers self.xcsrf_token_name).getD "")
    if r0.status_code == 403 then
      { response := send 1, headers := hs, calls := [(m, payload), (m, payload)] }
    else
      { response := r0, headers := hs, calls := [(m, payload)] }
  else
    { response := r0, headers := self.sessionHeaders, calls := [(m, payload)] }

/-- The dispatcher `Requests.request` from requests.py.  `payload` stands for the opaque
`*args, **kwargs` forwarded unchanged to the transport (minus the two
popped keys); `send n` is the response the transport returns to the n-th
invocation within this call. -/
def Requests.request (self : Requests) (send : Nat → Response)
    (method payload : String) (opts : CallOptions) : RunResult :=
  let m := pyLower method
  let r0 := send 0
  if opts.skip_roblox then
    { outcome := .success r0, finalHeaders := self.sessionHeaders,
      sentCalls := [(m, payload)], effectiveResponse := r0 }
  else
    let step := tokenStep self send m payload opts r0
    if opts.stream then
      { outcome := .success step.response, finalHeaders := step.headers,
        sentCalls := step.calls, effectiveResponse := step.response }
    else if step.response.status_code ≥ 400 then
      { outcome := translateRaise step.response, finalHeaders := step.headers,
        sentCalls := step.calls, effectiveResponse := step.response }
    else
      { outcome := .success step.response, finalHeaders := step.headers,
        sentCalls := step.calls, effectiveResponse := step.response }

/-- The method string the external `requests` library places on the wire:
`requests.Session.request` upper-cases whatever method string it receives
(`Request(method=method.upper(), ...)`).  Written over the character list
so it agrees with `String.toUpper` (see `wireMethod_eq_toUpper`) while
evaluating inside the kernel. -/
def wireMethod (m : String) : String := ⟨m.data.map Char.toUpper⟩

/-! Concrete fixtures used by witnesses and counterexamples. -/

/-- A `Requests` object as built by `__init__` with the default token header
name: the session carries the two fixed default headers. -/
def sessInit : Requests :=
  { sessionHeaders := [("User-Agent", "Roblox/WinInet"), ("Referer", "www.roblox.com")],
    xcsrf_token_name := "X-CSRF-Token" }

/-- A 403 response carrying the token header (note the lowercased header
name: response header lookup is case-insensitive). -/
def resp403tok : Response :=
  { status_code := 403, headers := [("x-csrf-token", "A")], jsonBody := none }

/-- A 403 response without the token header and without a JSON body. -/
def resp403plain : Response :=
  { status_code := 403, headers := [], jsonBody := none }

/-- A 200 response carrying the token header. -/
def resp200tok : Response :=
  { status_code := 200, headers := [("X-CSRF-Token", "A")], jsonBody := none }

/-- A 200 response carrying a different token value. -/
def resp200tokB : Response :=
  { status_code := 200, headers := [("x-csrf-token", "B")], jsonBody := none }

/-- A plain 200 response. -/
def resp200plain : Response :=
  { status_code := 200, headers := [], jsonBody := none }

/-- A plain 500 response without a JSON content type. -/
def resp500plain : Response :=
  { status_code := 500, headers := [], jsonBody := none }

/-- A 500 response carrying the token header (status raises after the
token is captured). -/
def resp500tok : Response :=
  { status_code := 500, headers := [("x-csrf-token", "T")], jsonBody := none }

/-- The 500 response of the spec's example: JSON content type and body
decoding to the object with the errors list. -/
def resp500errors : Response :=
  { status_code := 500, headers := [("Content-Type", "application/json")],
    jsonBody := some (.obj [("errors", .arr [.obj [("code", .num 1), ("message", .str "x")]])]) }

/-- A 500 response with JSON content type and a body that fails to decode. -/
def resp500malformed : Response :=
  { status_code := 500, headers := [("Content-Type", "application/json")], jsonBody := none }

/-- A 500 response with JSON content type whose body decodes to a truthy
non-dict (the JSON array `[1]`). -/
def resp500arrBody : Response :=
  { status_code := 500, headers := [("Content-Type", "application/json")],
    jsonBody := some (.arr [.num 1]) }

/-- Transport oracle: first a 403 carrying the token, then a plain 200. -/
def oraRetryOk : Nat → Response := fun n => if n == 0 then resp403tok else resp200plain

/-- Transport oracle: every attempt returns a 403 carrying the token. -/
def oraAlways403 : Nat → Response := fun _ => resp403tok

/-- Transport oracle: a 403 carrying token value A, then a 200 carrying a
different token value B. -/
def oraRetryNewTok : Nat → Response := fun n => if n == 0 then resp403tok else resp200tokB

/-! Bridge lemmas: the kernel-reducible string helpers agree with the
standard library's `String.toLower` and `String.toUpper`. -/

theorem pyLower_eq_toLower (s : String) : pyLower s = s.toLower := by
  simp [pyLower, String.toLower, String.map_eq]

theorem wireMethod_eq_toUpper (s : String) : wireMethod s = s.toUpper := by
  simp [wireMethod, String.toUpper, String.map_eq]

theorem charToNat_ofNat_valid {n : Nat} (h : n.isValidChar) : (Char.ofNat n).toNat = n := by
  unfold Char.ofNat
  rw [dif_pos h]
  rfl

theorem charToLower_toLower (c : Char) : c.toLower.toLower = c.toLower := by
  unfold Char.toLower
  by_cases h : c.toNat ≥ 65 ∧ c.toNat ≤ 90
  · rw [if_pos h]
    have hv : (c.toNat + 32).isValidChar := Or.inl (by omega)
    have ht : (Char.ofNat (c.toNat + 32)).toNat = c.toNat + 32 := charToNat_ofNat_valid hv
    rw [if_neg (by rw [ht]; omega)]
  · rw [if_neg h, if_neg h]

theorem charToUpper_toLower (c : Char) : c.toLower.toUpper = c.toUpper := by
  unfold Char.toLower Char.toUpper
  by_cases h : c.toNat ≥ 65 ∧ c.toNat ≤ 90
  · rw [if_pos h]
    have hv : (c.toNat + 32).isValidChar := Or.inl (by omega)
    have ht : (Char.ofNat (c.toNat + 32)).toNat = c.toNat + 32 := charToNat_ofNat_valid hv
    rw [if_pos (by rw [ht]; omega), if_neg (by omega), ht]
    have h32 : c.toNat + 32 - 32 = c.toNat := by omega
    rw [h32, Char.ofNat_toNat]
  · rw [if_neg h]

theorem pyLower_idem (s : String) : pyLower (pyLower s) = pyLower s := by
  simp [pyLower, List.map_map, Function.comp_def, charToLower_toLower]

theorem wireMethod_pyLower (s : String) : wireMethod (pyLower s) = wireMethod s := by
  simp [pyLower, wireMethod, List.map_map, Function.comp_def, charToUpper_toLower]

/-! Behaviour of the header dictionary. -/

theorem hGet_hSet (hs : Headers) (k v : String) : hGet (hSet hs k v) k = some v := by
  unfold hGet hSet
  induction hs with
  | nil => simp
  | cons p t ih =>
    by_cases h : pyLower p.fst == pyLower k
    · rw [List.filter_cons_of_neg (by simpa using h)]
      exact ih
    · rw [List.filter_cons_of_pos (by simpa using h)]
      simp only [List.cons_append, List.find?_cons]
      rw [Bool.not_eq_true] at h
      rw [h]
      exact ih

/-! Unfolding lemmas for `Requests.request`. -/

theorem request_eq_skip (self : Requests) (send : Nat → Response)
    (method payload : String) (opts : CallOptions) (hskip : opts.skip_roblox = true) :
    Requests.request self send method payload opts =
      { outcome := .success (send 0), finalHeaders := self.sessionHeaders,
        sentCalls := [(pyLower method, payload)], effectiveResponse := send 0 } := by
  simp [Requests.request, hskip]

theorem request_eq_not_skip (self : Requests) (send : Nat → Response)
    (method payload : String) (opts : CallOptions) (hskip : opts.skip_roblox = false) :
    Requests.request self send method payload opts =
      { outcome :=
          if opts.stream then
            Outcome.success (tokenStep self send (pyLower method) payload opts (send 0)).response
          else if (tokenStep self send (pyLower method) payload opts (send 0)).response.status_code ≥ 400 then
            translateRaise (tokenStep self send (pyLower method) payload opts (send 0)).response
          else
            Outcome.success (tokenStep self send (pyLower method) payload opts (send 0)).response,
        finalHeaders := (tokenStep self send (pyLower method) payload opts (send 0)).headers,
        sentCalls := (tokenStep self send (pyLower method) payload opts (send 0)).calls,
        effectiveResponse := (tokenStep self send (pyLower method) payload opts (send 0)).response } := by
  by_cases hstr : opts.stream
  · simp [Requests.request, hskip, hstr]
  · by_cases hst : (tokenStep self send (pyLower method) payload opts (send 0)).response.status_code ≥ 400
    · simp [Requests.request, hskip, hstr, hst]
    · simp [Requests.request, hskip, hstr, hst]

/-! Unfolding lemmas for `tokenStep`. -/

theorem tokenStep_guard_false (self : Requests) (send : Nat → Response)
    (m payload : String) (opts : CallOptions) (r0 : Response)
    (h : xcsrfGuard self opts m r0 = false) :
    tokenStep self send m payload opts r0 =
      { response := r0, headers := self.sessionHeaders, calls := [(m, payload)] } := by
  simp [tokenStep, h]

theorem tokenStep_403 (self : Requests) (send : Nat → Response)
    (m payload : String) (opts : CallOptions) (r0 : Response)
    (hg : xcsrfGuard self opts m r0 = true) (h403 : r0.status_code = 403) :
    tokenStep self send m payload opts r0 =
      { response := send 1,
        headers := hSet self.sessionHeaders self.xcsrf_token_name
          ((hGet r0.headers self.xcsrf_token_name).getD ""),
        calls := [(m, payload), (m, payload)] } := by
  simp [tokenStep, hg, h403]

theorem tokenStep_not403 (self : Requests) (send : Nat → Response)
    (m payload : String) (opts : CallOptions) (r0 : Response)
    (hg : xcsrfGuard self opts m r0 = true) (h403 : r0.status_code ≠ 403) :
    tokenStep self send m payload opts r0 =
      { response := r0,
        headers := hSet self.sessionHeaders self.xcsrf_token_name
          ((hGet r0.headers self.xcsrf_token_name).getD ""),
        calls := [(m, payload)] } := by
  simp [tokenStep, hg, h403]

theorem tokenStep_headers_of_guard (self : Requests) (send : Nat → Response)
    (m payload : String) (opts : CallOptions) (r0 : Response)
    (hg : xcsrfGuard self opts m r0 = true) :
    (tokenStep self send m payload opts r0).headers =
      hSet self.sessionHeaders self.xcsrf_token_name
        ((hGet r0.headers self.xcsrf_token_name).getD "") := by
  by_cases h403 : r0.status_code = 403
  · rw [tokenStep_403 self send m payload opts r0 hg h403]
  · rw [tokenStep_not403 self send m payload opts r0 hg h403]

theorem error_paths (self : Requests) (send : Nat → Response)
    (method payload : String) (opts : CallOptions) (r : Response)
    (hstream : opts.stream = false) (hskip : opts.skip_roblox = false)
    (hr : (Requests.request self send method payload opts).effectiveResponse = r) :
    (∀ errs, r.status_code ≥ 400 → contentTypeIsJson r = true →
        pyGetErrors (pyData r) = .extracted errs →
        (Requests.request self send method payload opts).outcome
          = .domainError { status_code := r.status_code, errors := errs, response := r })
    ∧ (r.status_code ≥ 400 → contentTypeIsJson r = false →
        (Requests.request self send method payload opts).outcome
          = .domainError { status_code := r.status_code, errors := none, response := r })
    ∧ (r.status_code < 400 →
        (Requests.request self send method payload opts).outcome = .success r) := by
  rw [request_eq_not_skip self send method payload opts hskip] at hr ⊢
  simp only at hr
  subst hr
  refine ⟨?_, ?_, ?_⟩
  · intro errs h400 hct hext
    simp [hstream, h400, translateRaise, hct, hext]
  · intro h400 hct
    simp [hstream, h400, translateRaise, hct]
  · intro hlt
    simp [hstream, Nat.not_le.mpr hlt]

theorem sentCalls_cases (self : Requests) (send : Nat → Response)
    (method payload : String) (opts : CallOptions) :
    (Requests.request self send method payload opts).sentCalls = [(pyLower method, payload)]
    ∨ (Requests.request self send method payload opts).sentCalls
      = [(pyLower method, payload), (pyLower method, payload)] := by
  by_cases hskip : opts.skip_roblox
  · left
    rw [request_eq_skip self send method payload opts hskip]
  · rw [request_eq_not_skip self send method payload opts (by simpa using hskip)]
    by_cases hg : xcsrfGuard self opts (pyLower method) (send 0)
    · by_cases h403 : (send 0).status_code = 403
      · right
        rw [tokenStep_403 self send (pyLower method) payload opts (send 0) hg h403]
      · left
        rw [tokenStep_not403 self send (pyLower method) payload opts (send 0) hg h403]
    · left
      rw [tokenStep_guard_false self send (pyLower method) payload opts (send 0)
        (by simpa using hg)]

/-- Claim C3: for every call whose method lowercases to "get", the session
default headers are never modified, no token is captured, and no automatic
resend occurs: exactly one transport call is made and its response is the
effective one — even when the response carries the token header or is a
403. -/
theorem c3_get_exempt (self : Requests) (send : Nat → Response)
    (method payload : String) (opts : CallOptions)
    (hm : pyLower method = "get") :
    (Requests.request self send method payload opts).finalHeaders = self.sessionHeaders
    ∧ (Requests.request self send method payload opts).sentCalls = [("get", payload)]
    ∧ (Requests.request self send method payload opts).effectiveResponse = send 0 := by
  have hdict : dictGetTruthy _xcsrf_allowed_methods "get" = false := by decide
  have hguard : xcsrfGuard self opts "get" (send 0) = false := by
    simp [xcsrfGuard, hdict]
  by_cases hskip : opts.skip_roblox
  · rw [request_eq_skip self send method payload opts hskip, hm]
    exact ⟨rfl, rfl, rfl⟩
  · rw [request_eq_not_skip self send method payload opts (by simpa using hskip), hm,
      tokenStep_guard_false self send "get" payload opts (send 0) hguard]
    exact ⟨rfl, rfl, rfl⟩

/-- Witness for C3: a concrete GET call whose response is a 403 carrying
the token header still changes nothing and is sent exactly once. -/
theorem c3_get_exempt_witness :
    (Requests.request sessInit oraAlways403 "GET" "p" {}).finalHeaders = sessInit.sessionHeaders
    ∧ (Requests.request sessInit oraAlways403 "GET" "p" {}).sentCalls = [("get", "p")]
    ∧ (Requests.request sessInit oraAlways403 "GET" "p" {}).effectiveResponse = oraAlways403 0 :=
  c3_get_exempt sessInit oraAlways403 "GET" "p" {} (by decide)

/-- Claim C4: with `skip_roblox` set, the raw first response is returned
for every status code: no Domain Error, no token capture, no resend. -/
theorem c4_skip_returns_raw (self : Requests) (send : Nat → Response)
    (method payload : String) (opts : CallOptions)
    (hskip : opts.skip_roblox = true) :
    (Requests.request self send method payload opts).outcome = .success (send 0)
    ∧ (Requests.request self send method payload opts).finalHeaders = self.sessionHeaders
    ∧ (Requests.request self send method payload opts).sentCalls
      = [(pyLower method, payload)] := by
  rw [request_eq_skip self send method payload opts hskip]
  exact ⟨rfl, rfl, rfl⟩

/-- Witness for C4: a POST whose response is a 500 with a decodable error
body is returned raw when `skip_roblox` is set. -/
theorem c4_skip_returns_raw_witness :
    (Requests.request sessInit (fun _ => resp500errors) "POST" "p"
        { skip_roblox := true }).outcome = .success resp500errors
    ∧ (Requests.request sessInit (fun _ => resp500errors) "POST" "p"
        { skip_roblox := true }).finalHeaders = sessInit.sessionHeaders
    ∧ (Requests.request sessInit (fun _ => resp500errors) "POST" "p"
        { skip_roblox := true }).sentCalls = [("post", "p")] :=
  c4_skip_returns_raw sessInit (fun _ => resp500errors) "POST" "p" { skip_roblox := true } rfl

/-- Claim C6: with `stream` set, the effective response is returned as a
success for every status code — never a Domain Error. -/
theorem c6_stream_never_raises (self : Requests) (send : Nat → Response)
    (method payload : String) (opts : CallOptions)
    (hstream : opts.stream = true) :
    (Requests.request self send method payload opts).outcome
      = .success ((Requests.request self send method payload opts).effectiveResponse) := by
  by_cases hskip : opts.skip_roblox
  · rw [request_eq_skip self send method payload opts hskip]
  · rw [request_eq_not_skip self send method payload opts (by simpa using hskip)]
    simp [hstream]

/-- Witness for C6: a streamed GET whose response is a plain 500 comes back
as a returned response, not an error. -/
theorem c6_stream_never_raises_witness :
    (Requests.request sessInit (fun _ => resp500plain) "GET" "p"
        { stream := true }).outcome
      = .success ((Requests.request sessInit (fun _ => resp500plain) "GET" "p"
        { stream := true }).effectiveResponse) :=
  c6_stream_never_raises sessInit (fun _ => resp500plain) "GET" "p" { stream := true } rfl

/-- Claim C1, counterexample: a POST with token handling enabled whose
response has status 403 but does not carry the token header triggers no
resend at all — the request is sent exactly once, where the claim as
stated requires exactly one automatic resend (two transport calls). -/
theorem c1_counterexample :
    ({} : CallOptions).handle_xcsrf_token = true
    ∧ resp403plain.status_code = 403
    ∧ (Requests.request sessInit (fun _ => resp403plain) "POST" "p" {}).sentCalls
      = [("post", "p")] :=
  ⟨rfl, rfl, by decide⟩

/-- Claim C1 (amended): with token handling enabled and `skip_roblox` not
set, a 403 response on an unsafe method that carries the token header
triggers exactly one automatic resend of the identical request, and the
resend's response becomes the effective response; since this holds for
every transport oracle, a second consecutive 403 never triggers a further
resend. -/
theorem c1_resend_once (self : Requests) (send : Nat → Response)
    (method payload : String) (opts : CallOptions)
    (hh : opts.handle_xcsrf_token = true) (hskip : opts.skip_roblox = false)
    (hm : dictGetTruthy _xcsrf_allowed_methods (pyLower method) = true)
    (htok : (hGet (send 0).headers self.xcsrf_token_name).isSome = true)
    (h403 : (send 0).status_code = 403) :
    (Requests.request self send method payload opts).sentCalls
      = [(pyLower method, payload), (pyLower method, payload)]
    ∧ (Requests.request self send method payload opts).effectiveResponse = send 1 := by
  have hguard : xcsrfGuard self opts (pyLower method) (send 0) = true := by
    simp [xcsrfGuard, hh, hm, htok]
  rw [request_eq_not_skip self send method payload opts hskip,
    tokenStep_403 self send (pyLower method) payload opts (send 0) hguard h403]
  exact ⟨rfl, rfl⟩

/-- Witness for C1: the transport answers 403-with-token to every attempt;
still exactly two transport calls happen and the second 403 is the
effective response. -/
theorem c1_resend_once_witness :
    (Requests.request sessInit oraAlways403 "POST" "p" {}).sentCalls
      = [("post", "p"), ("post", "p")]
    ∧ (Requests.request sessInit oraAlways403 "POST" "p" {}).effectiveResponse
      = oraAlways403 1 :=
  c1_resend_once sessInit oraAlways403 "POST" "p" {} rfl rfl (by decide) (by decide) rfl

/-- Claim C2, counterexample: with `skip_roblox` set, a POST whose response
carries the token header does not update the session default headers —
the token slot stays absent, where the claim as stated requires it to be
updated before the call returns. -/
theorem c2_counterexample :
    hGet resp200tok.headers "X-CSRF-Token" = some "A"
    ∧ (Requests.request sessInit (fun _ => resp200tok) "POST" "p"
        { skip_roblox := true }).finalHeaders = sessInit.sessionHeaders
    ∧ hGet (Requests.request sessInit (fun _ => resp200tok) "POST" "p"
        { skip_roblox := true }).finalHeaders "X-CSRF-Token" = none :=
  ⟨by decide, rfl, by decide⟩

/-- Claim C2 (amended): for every call on an unsafe method with token
handling enabled and `skip_roblox` not set, a response carrying the token
header updates the session default headers with that token value before
the call returns, for every status code — including ones that go on to
raise. -/
theorem c2_token_captured (self : Requests) (send : Nat → Response)
    (method payload : String) (opts : CallOptions) (v : String)
    (hh : opts.handle_xcsrf_token = true) (hskip : opts.skip_roblox = false)
    (hm : dictGetTruthy _xcsrf_allowed_methods (pyLower method) = true)
    (htok : hGet (send 0).headers self.xcsrf_token_name = some v) :
    (Requests.request self send method payload opts).finalHeaders
      = hSet self.sessionHeaders self.xcsrf_token_name v
    ∧ hGet (Requests.request self send method payload opts).finalHeaders
        self.xcsrf_token_name = some v := by
  have hguard : xcsrfGuard self opts (pyLower method) (send 0) = true := by
    simp [xcsrfGuard, hh, hm, htok]
  have hH := tokenStep_headers_of_guard self send (pyLower method) payload opts (send 0) hguard
  rw [htok] at hH
  rw [request_eq_not_skip self send method payload opts hskip]
  refine ⟨hH, ?_⟩
  rw [hH]
  exact hGet_hSet self.sessionHeaders self.xcsrf_token_name v

/-- Witness for C2: a PATCH whose response is a 500 carrying the token
header (a status that raises a Domain Error) still updates the session
headers with the token before the call ends. -/
theorem c2_token_captured_witness :
    (Requests.request sessInit (fun _ => resp500tok) "PATCH" "p" {}).finalHeaders
      = hSet sessInit.sessionHeaders "X-CSRF-Token" "T"
    ∧ hGet (Requests.request sessInit (fun _ => resp500tok) "PATCH" "p" {}).finalHeaders
        "X-CSRF-Token" = some "T" :=
  c2_token_captured sessInit (fun _ => resp500tok) "PATCH" "p" {} "T" rfl rfl
    (by decide) (by decide)

/-- Claim C10: when the automatic 403 resend happens, the session headers
after the call hold exactly the token captured from the first (403)
response before the resend — for every possible second response, so the
resend's own response never updates the token and never triggers further
token handling (exactly two transport calls). -/
theorem c10_resend_keeps_first_token (self : Requests) (send : Nat → Response)
    (method payload : String) (opts : CallOptions) (v : String)
    (hh : opts.handle_xcsrf_token = true) (hskip : opts.skip_roblox = false)
    (hm : dictGetTruthy _xcsrf_allowed_methods (pyLower method) = true)
    (htok : hGet (send 0).headers self.xcsrf_token_name = some v)
    (h403 : (send 0).status_code = 403) :
    (Requests.request self send method payload opts).finalHeaders
      = hSet self.sessionHeaders self.xcsrf_token_name v
    ∧ (Requests.request self send method payload opts).sentCalls.length = 2 := by
  have hguard : xcsrfGuard self opts (pyLower method) (send 0) = true := by
    simp [xcsrfGuard, hh, hm, htok]
  rw [request_eq_not_skip self send method payload opts hskip,
    tokenStep_403 self send (pyLower method) payload opts (send 0) hguard h403]
  rw [htok]
  exact ⟨rfl, rfl⟩

/-- Witness for C10: the resend's response carries a different token value
"B", yet the session keeps the value "A" captured from the first (403)
response. -/
theorem c10_resend_keeps_first_token_witness :
    hGet (oraRetryNewTok 1).headers "X-CSRF-Token" = some "B"
    ∧ ((Requests.request sessInit oraRetryNewTok "POST" "p" {}).finalHeaders
        = hSet sessInit.sessionHeaders "X-CSRF-Token" "A"
      ∧ (Requests.request sessInit oraRetryNewTok "POST" "p" {}).sentCalls.length = 2) :=
  ⟨by decide,
   c10_resend_keeps_first_token sessInit oraRetryNewTok "POST" "p" {} "A" rfl rfl
    (by decide) (by decide) rfl⟩

/-- Claim C9: the method is lowercased only for internal comparisons — the
whole call behaves identically for any casing of the same method — and the
wire-level method (the external library upper-cases what it receives) is
unaffected by the normalization: every transport invocation carries the
lowercased method, whose wire form equals that of the caller's original
method. -/
theorem c9_lowercase_internal_only (self : Requests) (send : Nat → Response)
    (method payload : String) (opts : CallOptions) :
    (∀ method', pyLower method' = pyLower method →
        Requests.request self send method' payload opts
          = Requests.request self send method payload opts)
    ∧ (∀ q ∈ (Requests.request self send method payload opts).sentCalls,
        q.fst = pyLower method ∧ wireMethod q.fst = wireMethod method) := by
  constructor
  · intro method' h
    simp only [Requests.request, h]
  · intro q hq
    have hw := wireMethod_pyLower method
    have hqe : q = (pyLower method, payload) := by
      rcases sentCalls_cases self send method payload opts with hc | hc <;> rw [hc] at hq <;>
        simpa using hq
    subst hqe
    exact ⟨rfl, hw⟩

/-- Witness for C9: "POST" and "post" give literally the same run, and the
transport call of the run carries "post", whose wire form matches. -/
theorem c9_lowercase_internal_only_witness :
    Requests.request sessInit oraRetryOk "POST" "p" {}
      = Requests.request sessInit oraRetryOk "post" "p" {}
    ∧ (("post", "p").fst = pyLower "post"
        ∧ wireMethod ("post", "p").fst = wireMethod "post") :=
  ⟨(c9_lowercase_internal_only sessInit oraRetryOk "post" "p" {}).1 "POST" (by decide),
   (c9_lowercase_internal_only sessInit oraRetryOk "post" "p" {}).2 ("post", "p") (by decide)⟩

/-- Claim C5, counterexample: on a streamed POST whose first response is a
403 carrying the token header, the token IS captured into the session
headers and the automatic resend DOES happen (two transport calls), where
the claim as stated says the token-handling step is skipped on streamed
calls. -/
theorem c5_counterexample :
    ({ stream := true } : CallOptions).stream = true
    ∧ (Requests.request sessInit oraRetryOk "POST" "p" { stream := true }).sentCalls
      = [("post", "p"), ("post", "p")]
    ∧ hGet (Requests.request sessInit oraRetryOk "POST" "p"
        { stream := true }).finalHeaders "X-CSRF-Token" = some "A" :=
  ⟨rfl, by decide, by decide⟩

/-- Claim C5 (amended): with `stream` set and `skip_roblox` not set, the
call returns the token-step's response as a success immediately after the
token-handling step, with the token-step's headers and transport calls:
the token-handling step is not skipped, so on an unsafe-method 403 with
the token header present the capture and the single resend still occur. -/
theorem c5_stream_after_token_step (self : Requests) (send : Nat → Response)
    (method payload : String) (opts : CallOptions)
    (hstream : opts.stream = true) (hskip : opts.skip_roblox = false) :
    ((Requests.request self send method payload opts).outcome
      = .success (tokenStep self send (pyLower method) payload opts (send 0)).response
    ∧ (Requests.request self send method payload opts).finalHeaders
      = (tokenStep self send (pyLower method) payload opts (send 0)).headers
    ∧ (Requests.request self send method payload opts).sentCalls
      = (tokenStep self send (pyLower method) payload opts (send 0)).calls)
    ∧ (xcsrfGuard self opts (pyLower method) (send 0) = true →
        (send 0).status_code = 403 →
        (Requests.request self send method payload opts).sentCalls
          = [(pyLower method, payload), (pyLower method, payload)]
        ∧ (Requests.request self send method payload opts).outcome
          = .success (send 1)) := by
  rw [request_eq_not_skip self send method payload opts hskip]
  constructor
  · simp [hstream]
  · intro hg h403
    rw [tokenStep_403 self send (pyLower method) payload opts (send 0) hg h403]
    simp [hstream]

/-- Witness for C5: the streamed POST of the counterexample ends as a
success with the resend's 200 response after two transport calls. -/
theorem c5_stream_after_token_step_witness :
    ((Requests.request sessInit oraRetryOk "POST" "p" { stream := true }).outcome
      = .success (tokenStep sessInit oraRetryOk "post" "p" { stream := true }
          (oraRetryOk 0)).response
    ∧ (Requests.request sessInit oraRetryOk "POST" "p" { stream := true }).finalHeaders
      = (tokenStep sessInit oraRetryOk "post" "p" { stream := true } (oraRetryOk 0)).headers
    ∧ (Requests.request sessInit oraRetryOk "POST" "p" { stream := true }).sentCalls
      = (tokenStep sessInit oraRetryOk "post" "p" { stream := true } (oraRetryOk 0)).calls)
    ∧ (xcsrfGuard sessInit { stream := true } "post" (oraRetryOk 0) = true →
        (oraRetryOk 0).status_code = 403 →
        (Requests.request sessInit oraRetryOk "POST" "p" { stream := true }).sentCalls
          = [("post", "p"), ("post", "p")]
        ∧ (Requests.request sessInit oraRetryOk "POST" "p" { stream := true }).outcome
          = .success (oraRetryOk 1)) :=
  c5_stream_after_token_step sessInit oraRetryOk "POST" "p" { stream := true } rfl rfl

/-- Claim C7, counterexample: a non-streamed, non-suppressed GET whose
response has status 500, a JSON content type, and a body decoding to the
truthy non-dict `[1]` does not raise a Domain Error: the call ends with an
AttributeError escaping from `data.get("errors")`. -/
theorem c7_counterexample :
    resp500arrBody.status_code = 500
    ∧ hGet resp500arrBody.headers "Content-Type" = some "application/json"
    ∧ (Requests.request sessInit (fun _ => resp500arrBody) "GET" "p" {}).outcome
      = .attrErrorRaised resp500arrBody
    ∧ ∀ e : DomainError,
        (Requests.request sessInit (fun _ => resp500arrBody) "GET" "p" {}).outcome
          ≠ .domainError e :=
  ⟨rfl, by decide, rfl, fun _ h => nomatch h⟩

/-- Claim C7 (amended): for a non-streamed, non-suppressed call whose
effective response has status ≥ 400, a Domain Error is raised carrying
that status code, the response, and the errors extracted from the body —
attempted only under a JSON content type — provided the decoded body is
not a truthy non-dict; with a non-JSON content type the errors are absent;
a status < 400 returns the effective response unchanged. -/
theorem c7_error_translation (self : Requests) (send : Nat → Response)
    (method payload : String) (opts : CallOptions) (r : Response)
    (hstream : opts.stream = false) (hskip : opts.skip_roblox = false)
    (hr : (Requests.request self send method payload opts).effectiveResponse = r) :
    (∀ errs, r.status_code ≥ 400 → contentTypeIsJson r = true →
        pyGetErrors (pyData r) = .extracted errs →
        (Requests.request self send method payload opts).outcome
          = .domainError { status_code := r.status_code, errors := errs, response := r })
    ∧ (r.status_code ≥ 400 → contentTypeIsJson r = false →
        (Requests.request self send method payload opts).outcome
          = .domainError { status_code := r.status_code, errors := none, response := r })
    ∧ (r.status_code < 400 →
        (Requests.request self send method payload opts).outcome = .success r) :=
  error_paths self send method payload opts r hstream hskip hr

/-- Witness for C7: the spec's example — status 500, Content-Type
application/json, body decoding to the errors object — raises a Domain
Error with status 500 and that errors list. -/
theorem c7_error_translation_witness :
    (Requests.request sessInit (fun _ => resp500errors) "GET" "p" {}).outcome
      = .domainError
        { status_code := 500,
          errors := some (.arr [.obj [("code", .num 1), ("message", .str "x")]]),
          response := resp500errors } :=
  (c7_error_translation sessInit (fun _ => resp500errors) "GET" "p" {} resp500errors
    rfl rfl rfl).1
    (some (.arr [.obj [("code", .num 1), ("message", .str "x")]]))
    (by decide) (by decide) rfl

/-- Claim C8: for a non-streamed, non-suppressed call whose effective
response has status ≥ 400, a JSON content type, and a body that fails to
decode, the decode failure is swallowed: a Domain Error is still raised
carrying the status code with the errors absent. -/
theorem c8_decode_failure_swallowed (self : Requests) (send : Nat → Response)
    (method payload : String) (opts : CallOptions) (r : Response)
    (hstream : opts.stream = false) (hskip : opts.skip_roblox = false)
    (hr : (Requests.request self send method payload opts).effectiveResponse = r)
    (h400 : r.status_code ≥ 400)
    (hct : contentTypeIsJson r = true)
    (hbody : r.jsonBody = none) :
    (Requests.request self send method payload opts).outcome
      = .domainError { status_code := r.status_code, errors := none, response := r } := by
  have hext : pyGetErrors (pyData r) = .extracted none := by
    simp [pyData, hbody, pyGetErrors]
  exact (error_paths self send method payload opts r hstream hskip hr).1
    none h400 hct hext

/-- Witness for C8: a 500 with JSON content type and an undecodable body
yields a Domain Error with status 500 and no errors. -/
theorem c8_decode_failure_swallowed_witness :
    (Requests.request sessInit (fun _ => resp500malformed) "GET" "p" {}).outcome
      = .domainError { status_code := 500, errors := none, response := resp500malformed } :=
  c8_decode_failure_swallowed sessInit (fun _ => resp500malformed) "GET" "p" {}
    resp500malformed rfl rfl rfl (by decide) (by decide) rfl

end RequestsRo
